import Mathlib

/-!
Shallow embedding of the shocker container runtime (Python sources under
src/shocker/) and proofs about it.  Pure functions of the source become Lean
functions; filesystem and process effects become explicit state passing or an
environment of step outcomes.
-/

set_option maxRecDepth 4096

/-- A container record as stored in the registry file: the value of one name
in containers.json (container_registry.py). -/
structure Record where
  ip : String
  netns : String
deriving DecidableEq, Repr

/-- The in-memory registry: a finite map name to record, modelled as an
association list in insertion order (Python dicts preserve insertion order). -/
abbrev Registry := List (String × Record)

/-- First-match lookup, the model of Python dict indexing and `.get`. -/
def lookupFirst (c : Registry) (n : String) : Option Record :=
  (c.find? (fun p => p.1 == n)).map (fun p => p.2)

/-- Membership test, the model of `name in containers`. -/
def hasName (c : Registry) (n : String) : Bool :=
  c.any (fun p => p.1 == n)

/-- Split a character list at every occurrence of sep, the model of the
Python str.split with a one-character separator; the empty string yields
one empty piece, as in Python. -/
def splitOnChar (sep : Char) : List Char → List (List Char)
  | [] => [[]]
  | c :: cs =>
    let r := splitOnChar sep cs
    if c = sep then [] :: r
    else
      match r with
      | [] => [[c]]
      | h :: t => (c :: h) :: t

/-- Value of a nonempty all-digit character list, none otherwise. -/
def digitsVal (l : List Char) : Option Nat :=
  if l ≠ [] ∧ l.all Char.isDigit then
    some (l.foldl (fun a c => 10 * a + (c.toNat - 48)) 0)
  else none

/-- The model of the Python int() on a string: an optional sign followed by
digits; none models a ValueError. -/
def pyInt? : List Char → Option Int
  | '-' :: ds => (digitsVal ds).map (fun n => -(n : Int))
  | '+' :: ds => (digitsVal ds).map (fun n => (n : Int))
  | ds => (digitsVal ds).map (fun n => (n : Int))

/-- The expression int(ip.split(".")[-1]) from allocate_ip: the numeric last
octet of a dotted-quad string; none models a ValueError from int(). -/
def lastOctet (ip : String) : Option Int :=
  ((splitOnChar '.' ip.toList).getLast?).bind pyInt?

/-- Python `max` over a list, none on the empty list. -/
def listMax (l : List Int) : Option Int :=
  l.foldl (fun acc x =>
    match acc with
    | none => some x
    | some a => some (max a x)) none

/-- allocate_ip from container_registry.py: the empty registry gets
"69.69.0.2"; otherwise one plus the maximum last octet over all records.
none models an uncaught exception from int() on a malformed address. -/
def allocate_ip (containers : Registry) : Option String :=
  if containers.isEmpty then some "69.69.0.2"
  else do
    let used ← containers.mapM (fun p => lastOctet p.2.ip)
    let m ← listMax used
    some ("69.69.0." ++ toString (m + 1))

/-- Failure modes of the registry operations. -/
inductive RegErr where
  | nameConflict : String → RegErr
deriving DecidableEq, Repr

/-- register from container_registry.py: raise on an existing name, else add
the record at the end (Python dict assignment of a fresh key appends). -/
def register (c : Registry) (n ip netns : String) : Except RegErr Registry :=
  if hasName c n then .error (.nameConflict n)
  else .ok (c ++ [(n, ⟨ip, netns⟩)])

/-- unregister from container_registry.py: `containers.pop(name, None)`,
removing the key when present and doing nothing otherwise. -/
def unregister (c : Registry) (n : String) : Registry :=
  c.filter (fun p => !(p.1 == n))

/-- get_ip from container_registry.py: `containers.get(name, {}).get("ip")`. -/
def get_ip (c : Registry) (n : String) : Option String :=
  (lookupFirst c n).map (fun r => r.ip)

/-- The lines built by get_hosts_entries, one `ip<TAB>name` per record in
registry order. -/
def hosts_lines (c : Registry) : List String :=
  c.map (fun p => p.2.ip ++ "\t" ++ p.1)

/-- get_hosts_entries from container_registry.py: the lines joined by
newlines. -/
def get_hosts_entries (c : Registry) : String :=
  String.intercalate "\n" (hosts_lines c)

/-!  JSON documents, for the on-disk format of containers.json.  -/

/-- A JSON value, restricted to the constructors the registry file uses:
strings and objects with insertion-ordered fields. -/
inductive JVal : Type where
  | str : String → JVal
  | obj : List (String × JVal) → JVal

/-- Field lookup in a JSON object, the model of dict indexing on parsed
JSON. -/
def jLookup (fields : List (String × JVal)) (k : String) : Option JVal :=
  (fields.find? (fun p => p.1 == k)).map (fun p => p.2)

/-- The JSON encoding of one container record. -/
def encodeRecord (r : Record) : JVal :=
  .obj [("ip", .str r.ip), ("netns", .str r.netns)]

/-- _save_containers from container_registry.py: json.dumps(containers)
writes the record map itself as the top-level object, with no wrapper. -/
def save_containers (c : Registry) : JVal :=
  .obj (c.map (fun p => (p.1, encodeRecord p.2)))

/-- _load_containers from container_registry.py, after json.loads: if the
document is an object with a "containers" key, return that value, otherwise
return the document itself. -/
def load_containers (doc : JVal) : JVal :=
  match doc with
  | .obj fields =>
    match jLookup fields "containers" with
    | some inner => inner
    | none => doc
  | v => v

/-- Read one record back from JSON, the model of the field accesses
info["ip"] and info["netns"] performed by the callers of _load_containers. -/
def decodeRecord : JVal → Option Record
  | .obj fields =>
    match jLookup fields "ip", jLookup fields "netns" with
    | some (.str ip), some (.str ns) => some ⟨ip, ns⟩
    | _, _ => none
  | _ => none

/-- Read a whole record map back from JSON. -/
def decodeContainers : JVal → Option Registry
  | .obj fields =>
    fields.mapM (fun p => (decodeRecord p.2).map (fun r => (p.1, r)))
  | _ => none

/-!  Docker registry client (docker_registry.py) and CLI parsing (main.py).  -/

/-- The repository stored by DockerRegistryClient.__init__: the constructor
always prepends "library/". -/
def clientRepository (repository : String) : String :=
  "library/" ++ repository

/-- Split a character list at the first occurrence of sep, the model of the
Python str.split(sep, 1); none when sep does not occur, which also models
the `sep in s` test. -/
def splitAtFirst (sep : Char) : List Char → Option (List Char × List Char)
  | [] => none
  | c :: cs =>
    if c = sep then some ([], cs)
    else (splitAtFirst sep cs).map (fun p => (c :: p.1, p.2))

/-- Image-reference parsing from the pull and run commands in main.py: split
repository and tag at the first colon, defaulting the tag to "latest". -/
def parseImageRef (s : String) : String × String :=
  match splitAtFirst ':' s.toList with
  | some (r, t) => (String.mk r, String.mk t)
  | none => (s, "latest")

/-- One entry of a manifest list, with the platform fields optional exactly
as manifest.get("platform", {}).get(...) treats them. -/
structure ManifestEntry where
  architecture : Option String
  os : Option String
  digest : String
deriving DecidableEq, Repr

/-- The first manifest response: a manifest list carries a "manifests"
array, a platform manifest instead carries a "layers" array.  The optional
fields model the presence of those keys in the parsed JSON. -/
structure ManifestResponse where
  manifests : Option (List ManifestEntry)
  layers : Option (List String)
deriving DecidableEq, Repr

/-- The platform test from _get_platform_manifest_digest. -/
def platformMatches (architecture os : String) (e : ManifestEntry) : Bool :=
  e.architecture == some architecture && e.os == some os

/-- _get_platform_manifest_digest from docker_registry.py: scan
manifest_list.get("manifests", []) for the first entry whose platform
matches, and raise a ValueError when none does. -/
def get_platform_manifest_digest (resp : ManifestResponse)
    (architecture os : String) : Except String String :=
  match (resp.manifests.getD []).find? (platformMatches architecture os) with
  | some e => .ok e.digest
  | none => .error ("Platform " ++ os ++ "/" ++ architecture ++
      " not found in manifest list")

/-- Default architecture parameter of DockerRegistryClient.pull. -/
def defaultArchitecture : String := "amd64"

/-- Default os_type parameter of DockerRegistryClient.pull. -/
def defaultOsType : String := "linux"

/-- The digest-selection step of pull at its default platform parameters. -/
def pull_platform_digest (resp : ManifestResponse) : Except String String :=
  get_platform_manifest_digest resp defaultArchitecture defaultOsType

/-- Zero-padding to width three, the model of the format i:03d. -/
def pad3 (n : Nat) : String :=
  let s := toString n
  if s.length < 3 then String.mk (List.replicate (3 - s.length) '0') ++ s else s

/-- digest.replace(":", "_") from the layer-filename computation. -/
def digestSafe (digest : String) : String :=
  String.mk (digest.toList.map (fun c => if c = ':' then '_' else c))

/-- The on-disk path of layer number i (1-based) with the given digest,
from pull in docker_registry.py. -/
def layerPath (dir : String) (i : Nat) (digest : String) : String :=
  dir ++ "/layer_" ++ pad3 i ++ "_" ++ digestSafe digest ++ ".tar.gz"

/-- The remote blob store: digest to content; a digest is present exactly
when the HEAD of _check_blob_exists reports it and _download_blob returns
its bytes. -/
abbrev Remote := List (String × String)

/-- The local output directory: path to file content. -/
abbrev Disk := List (String × String)

/-- Key presence in an association list (Path.exists, digest presence). -/
def hasKey (l : List (String × String)) (k : String) : Bool :=
  l.any (fun p => p.1 == k)

/-- Value lookup in an association list. -/
def lookupKey (l : List (String × String)) (k : String) : Option String :=
  (l.find? (fun p => p.1 == k)).map (fun p => p.2)

/-- The layer loop of pull in docker_registry.py, over the manifest layer
digests with their 1-based index: skip a digest absent from the remote
(MissingBlob warning), skip a layer whose target path already exists, and
otherwise download and write the blob.  Returns the final disk and the list
of digests fetched by _download_blob, in order. -/
def pullLayers (remote : Remote) (dir : String) :
    Nat → List String → Disk → Disk × List String
  | _, [], disk => (disk, [])
  | i, digest :: rest, disk =>
    if hasKey remote digest = false then
      pullLayers remote dir (i + 1) rest disk
    else if hasKey disk (layerPath dir i digest) then
      pullLayers remote dir (i + 1) rest disk
    else
      let r := pullLayers remote dir (i + 1) rest
        (disk ++ [(layerPath dir i digest, (lookupKey remote digest).getD "")])
      (r.1, digest :: r.2)

/-- pull restricted to its layer-materialisation effect: the loop starts at
index 1. -/
def pullImage (remote : Remote) (dir : String) (layers : List String)
    (disk : Disk) : Disk × List String :=
  pullLayers remote dir 1 layers disk

/-- The target paths of the layers whose blob the remote can serve: after a
successful pull these are exactly the paths guaranteed to exist on disk. -/
def availPaths (remote : Remote) (dir : String) :
    Nat → List String → List String
  | _, [] => []
  | i, d :: rest =>
    if hasKey remote d = false then availPaths remote dir (i + 1) rest
    else layerPath dir i d :: availPaths remote dir (i + 1) rest

/-!  Port forwarding (networking.py).  -/

/-- The five iptables invocations issued per port mapping by
setup_port_forwarding in networking.py, as argument vectors, in program
order. -/
def mappingRules (container_ip : String) (host_port container_port : Nat) :
    List (List String) :=
  [["iptables", "-A", "FORWARD",
    "-d", container_ip, "-p", "tcp", "--dport", toString container_port,
    "-j", "ACCEPT"],
   ["iptables", "-A", "FORWARD",
    "-s", container_ip, "-p", "tcp", "--sport", toString container_port,
    "-j", "ACCEPT"],
   ["iptables", "-t", "nat", "-A", "PREROUTING",
    "-p", "tcp", "--dport", toString host_port,
    "-j", "DNAT", "--to-destination",
    container_ip ++ ":" ++ toString container_port],
   ["iptables", "-t", "nat", "-A", "OUTPUT",
    "-p", "tcp", "-d", "127.0.0.1", "--dport", toString host_port,
    "-j", "DNAT", "--to-destination",
    container_ip ++ ":" ++ toString container_port],
   ["iptables", "-t", "nat", "-A", "POSTROUTING",
    "-p", "tcp", "-d", container_ip, "--dport", toString container_port,
    "-j", "MASQUERADE"]]

/-- Run a sequence of check=True subprocess calls under an environment ok
telling which invocations succeed: stop at the first failure, keeping the
rules already added (there is no rollback in the source).  Returns the
installed rules in order and whether every call succeeded. -/
def addRules (ok : List String → Bool) : List (List String) →
    List (List String) × Bool
  | [] => ([], true)
  | r :: rs =>
    if ok r then
      let t := addRules ok rs
      (r :: t.1, t.2)
    else ([], false)

/-- setup_port_forwarding from networking.py: for each mapping issue its
five rules in order with check=True and no surrounding handler, so the
first failing rule aborts the whole call; rules already installed, for the
current mapping and for earlier mappings, stay installed. -/
def setup_port_forwarding (ok : List String → Bool) :
    List (Nat × Nat) → String → List (List String) × Bool
  | [], _ => ([], true)
  | (h, c) :: rest, container_ip =>
    let first := addRules ok (mappingRules container_ip h c)
    if first.2 then
      let t := setup_port_forwarding ok rest container_ip
      (first.1 ++ t.1, t.2)
    else (first.1, false)

/-!  Runtime orchestration (run.py).  -/

/-- Failure modes of run_container and of the helpers it calls, mirroring
the exceptions the Python code can raise. -/
inductive RunErr where
  | permissionError
  | imageNotFound
  | noLayers
  | netnsSetupFailed
  | extractFailed
  | dnsFailed
  | spawnFailed
  | calledProcessError : Nat → RunErr
deriving DecidableEq, Repr

/-- The cleanup operations run_container performs in its finally block, in
the order the block executes them. -/
inductive CleanupStep where
  | socatCleanup
  | netnsCleanup
  | rmtreeRootfs
deriving DecidableEq, Repr

/-- One run of run_container, abstracted to the outcome of each effectful
step: the effective UID, whether the image directory and its layer files
exist, whether each fallible step succeeds, the exit code of the child, and
the requested port mappings. -/
structure RunEnv where
  euid : Nat
  imageExists : Bool
  layerCount : Nat
  netnsSetupOk : Bool
  extractOk : Bool
  dnsOk : Bool
  spawnOk : Bool
  childExit : Nat
  ports : List (Nat × Nat)
deriving DecidableEq, Repr

/-- What a run did: its outcome, the cleanup operations of the finally
block that actually ran (in execution order), whether the rootfs temporary
directory was created and later removed, whether cleanup_network_namespace
ran on any path, and the child exit code observed by the success print. -/
structure RunResult where
  outcome : Except RunErr Unit
  cleanups : List CleanupStep
  rootfsCreated : Bool
  rootfsRemoved : Bool
  netnsTornDown : Bool
  capturedExit : Option Nat
deriving Repr

/-- chroot_execute from run.py: subprocess.run(chroot_cmd, env=env,
check=True).  A spawn failure raises OSError; check=True raises
CalledProcessError on any non-zero child exit; otherwise the completed
process with return code zero is returned. -/
def chroot_execute (spawnOk : Bool) (childExit : Nat) : Except RunErr Nat :=
  if spawnOk = false then .error .spawnFailed
  else if childExit ≠ 0 then .error (.calledProcessError childExit)
  else .ok childExit

/-- The body of the try block of run_container: layer extraction, DNS
setup, then chroot_execute. -/
def runBody (env : RunEnv) : Except RunErr Nat :=
  if env.extractOk = false then .error .extractFailed
  else if env.dnsOk = false then .error .dnsFailed
  else chroot_execute env.spawnOk env.childExit

/-- run_container from run.py.  The euid, image and layer checks come
first and raise before anything is created.  The rootfs temporary directory
is then created; setup_network_namespace runs outside any try/finally, its
own handler tearing the namespace down and re-raising, which leaves the
rootfs directory behind.  socat port forwarding swallows per-mapping
errors and never raises.  The try block runs the body; the finally block
always runs socat cleanup (when processes were started), namespace cleanup
and rmtree of the rootfs, in that order. -/
def run_container (env : RunEnv) : RunResult :=
  if env.euid ≠ 0 then
    ⟨.error .permissionError, [], false, false, false, none⟩
  else if env.imageExists = false then
    ⟨.error .imageNotFound, [], false, false, false, none⟩
  else if env.layerCount = 0 then
    ⟨.error .noLayers, [], false, false, false, none⟩
  else if env.netnsSetupOk = false then
    ⟨.error .netnsSetupFailed, [], true, false, true, none⟩
  else
    match runBody env with
    | .ok code =>
      ⟨.ok (),
        (if env.ports.isEmpty then [] else [CleanupStep.socatCleanup]) ++
          [CleanupStep.netnsCleanup, CleanupStep.rmtreeRootfs],
        true, true, true, some code⟩
    | .error e =>
      ⟨.error e,
        (if env.ports.isEmpty then [] else [CleanupStep.socatCleanup]) ++
          [CleanupStep.netnsCleanup, CleanupStep.rmtreeRootfs],
        true, true, true, none⟩

/-- The exit code of the whole process: zero when run_container returns,
one when an exception escapes to the interpreter. -/
def processExitCode (r : RunResult) : Nat :=
  match r.outcome with
  | .ok _ => 0
  | .error _ => 1

/-!  Theorems.  -/

/-- Absence of a name gives a pointwise key disequality over the registry. -/
theorem hasName_eq_false {c : Registry} {n : String}
    (h : hasName c n = false) : ∀ x ∈ c, (x.1 == n) = false := by
  intro x hx
  have := List.any_eq_false.mp h x hx
  simpa using this

/-- C1 counterexample: with a record at last octet 254 the next octet is
255, beyond .254, yet allocate_ip returns "69.69.0.255" successfully; the
code has no SubnetExhausted check, refuting the failure clause of the
claim. -/
theorem allocate_ip_exhaustion_counterexample :
    allocate_ip [("c253", ⟨"69.69.0.254", "shocker-253"⟩)] = some "69.69.0.255" ∧
    allocate_ip [("c253", ⟨"69.69.0.254", "shocker-253"⟩)] ≠ none :=
  ⟨rfl, by decide⟩

/-- C1 (amended): allocateIp returns the .2 address on an empty registry
and otherwise one plus the maximum last octet over all records, with no
exhaustion check of any kind: the next octet may exceed .254 and no
SubnetExhausted failure exists. -/
theorem allocate_ip_spec (c : Registry) (used : List Int) (m : Int)
    (hp : c.mapM (fun p => lastOctet p.2.ip) = some used)
    (hm : listMax used = some m) :
    allocate_ip [] = some "69.69.0.2" ∧
    (c ≠ [] → allocate_ip c = some ("69.69.0." ++ toString (m + 1))) := by
  constructor
  · rfl
  · intro hc
    unfold allocate_ip
    rw [if_neg (by simpa [List.isEmpty_iff] using hc)]
    show (c.mapM (fun p => lastOctet p.2.ip)).bind
        (fun used => (listMax used).bind
          (fun m => some ("69.69.0." ++ toString (m + 1)))) = _
    rw [hp, Option.some_bind, hm, Option.some_bind]

/-- Witness for allocate_ip_spec at a one-record registry. -/
theorem allocate_ip_spec_witness :
    allocate_ip [] = some "69.69.0.2" ∧
    allocate_ip [("a", ⟨"69.69.0.2", "ns0"⟩)] = some "69.69.0.3" :=
  ⟨(allocate_ip_spec [("a", ⟨"69.69.0.2", "ns0"⟩)] [2] 2 rfl rfl).1,
   (allocate_ip_spec [("a", ⟨"69.69.0.2", "ns0"⟩)] [2] 2 rfl rfl).2 (by simp)⟩

/-- C5: register fails with a name conflict exactly when the name is
already present; when it succeeds, get_ip of the new name yields the new ip
and the hosts file contains the line ip TAB name for the new record. -/
theorem register_spec (c : Registry) (n ip ns : String) :
    (register c n ip ns = .error (.nameConflict n) ↔ hasName c n = true) ∧
    ∀ c2, register c n ip ns = .ok c2 →
      get_ip c2 n = some ip ∧ (ip ++ "\t" ++ n) ∈ hosts_lines c2 := by
  constructor
  · unfold register
    by_cases h : hasName c n = true
    · simp [h]
    · simp [h]
  · intro c2 h2
    unfold register at h2
    by_cases h : hasName c n = true
    · simp [h] at h2
    · simp [h] at h2
      subst h2
      have hfalse : hasName c n = false := by
        cases hv : hasName c n
        · rfl
        · exact absurd hv h
      constructor
      · unfold get_ip lookupFirst
        rw [List.find?_append]
        have hnone : c.find? (fun p => p.1 == n) = none :=
          List.find?_eq_none.mpr (fun x hx => by
            rw [hasName_eq_false hfalse x hx]; exact Bool.false_ne_true)
        simp [hnone]
      · unfold hosts_lines
        refine List.mem_map.mpr ⟨(n, ⟨ip, ns⟩), ?_, rfl⟩
        simp

/-- Witness for register_spec on the empty registry. -/
theorem register_spec_witness :
    get_ip [("web", ⟨"69.69.0.2", "shocker-web"⟩)] "web" = some "69.69.0.2" ∧
    ("69.69.0.2" ++ "\t" ++ "web") ∈
      hosts_lines [("web", ⟨"69.69.0.2", "shocker-web"⟩)] :=
  (register_spec [] "web" "69.69.0.2" "shocker-web").2
    [("web", ⟨"69.69.0.2", "shocker-web"⟩)] rfl

/-- C9 counterexample: a repository that already contains a slash is not
used as given; the constructor still prepends "library/". -/
theorem repository_slash_counterexample :
    clientRepository "myorg/app" = "library/myorg/app" ∧
    clientRepository "myorg/app" ≠ "myorg/app" :=
  ⟨rfl, by decide⟩

/-- C9 (amended): the client prefixes every repository with "library/",
whether or not it contains a slash; the tag defaults to "latest" exactly
when the image reference contains no colon, and otherwise the reference is
split at the first colon. -/
theorem image_ref_amended (repository s : String)
    (hs : ':' ∉ s.toList) :
    clientRepository repository = "library/" ++ repository ∧
    parseImageRef s = (s, "latest") := by
  constructor
  · rfl
  · have hnone : ∀ l : List Char, ':' ∉ l → splitAtFirst ':' l = none := by
      intro l
      induction l with
      | nil => intro _; rfl
      | cons c cs ih =>
        intro hmem
        unfold splitAtFirst
        rw [if_neg (by rintro rfl; exact hmem (List.mem_cons_self _ _)),
          ih (fun hc => hmem (List.mem_cons_of_mem _ hc))]
        rfl
    unfold parseImageRef
    rw [hnone s.toList hs]

/-- Witness for image_ref_amended at a slash-bearing repository and a
colon-free reference. -/
theorem image_ref_amended_witness :
    clientRepository "myorg/app" = "library/" ++ "myorg/app" ∧
    parseImageRef "nginx" = ("nginx", "latest") :=
  image_ref_amended "myorg/app" "nginx" (by decide)

/-- C10: register of a fresh name and unregister leave every other record
unchanged, and unregister of an absent name leaves the registry unchanged. -/
theorem registry_frame_spec (c : Registry) (n m ip ns : String)
    (hmn : m ≠ n) :
    (∀ c2, register c n ip ns = .ok c2 → lookupFirst c2 m = lookupFirst c m) ∧
    lookupFirst (unregister c n) m = lookupFirst c m ∧
    (hasName c n = false → unregister c n = c) := by
  refine ⟨?_, ?_, ?_⟩
  · intro c2 h2
    unfold register at h2
    by_cases h : hasName c n = true
    · simp [h] at h2
    · simp [h] at h2
      subst h2
      unfold lookupFirst
      rw [List.find?_append]
      have : List.find? (fun p => p.1 == m) [(n, Record.mk ip ns)] = none := by
        simp [hmn.symm]
      rw [this]
      cases List.find? (fun p => p.1 == m) c <;> rfl
  · unfold unregister lookupFirst
    induction c with
    | nil => rfl
    | cons hd tl ih =>
      by_cases h1 : hd.1 = n
      · have hbn : (!(hd.1 == n)) = false := by simp [h1]
        have hbm : (hd.1 == m) = false := by
          simp [h1]
          exact fun e => hmn e.symm
        rw [List.filter_cons, hbn]
        simp only [if_false, Bool.false_eq_true]
        rw [List.find?_cons, hbm]
        exact ih
      · have hbn : (!(hd.1 == n)) = true := by simp [h1]
        rw [List.filter_cons, hbn]
        simp only [if_true]
        by_cases h2 : hd.1 = m
        · have hbm : (hd.1 == m) = true := by simp [h2]
          rw [List.find?_cons, hbm, List.find?_cons, hbm]
        · have hbm : (hd.1 == m) = false := by simp [h2]
          rw [List.find?_cons, hbm, List.find?_cons, hbm]
          exact ih
  · intro h
    unfold unregister
    rw [List.filter_eq_self]
    intro a ha
    rw [hasName_eq_false h a ha]
    rfl

/-- Witness for registry_frame_spec on a two-record registry. -/
theorem registry_frame_spec_witness :
    lookupFirst (unregister [("a", ⟨"69.69.0.2", "n1"⟩), ("b", ⟨"69.69.0.3", "n2"⟩)] "b") "a" =
      lookupFirst [("a", ⟨"69.69.0.2", "n1"⟩), ("b", ⟨"69.69.0.3", "n2"⟩)] "a" ∧
    unregister [("a", ⟨"69.69.0.2", "n1"⟩)] "zzz" = [("a", ⟨"69.69.0.2", "n1"⟩)] :=
  ⟨(registry_frame_spec [("a", ⟨"69.69.0.2", "n1"⟩), ("b", ⟨"69.69.0.3", "n2"⟩)]
      "b" "a" "x" "y" (by decide)).2.1,
   (registry_frame_spec [("a", ⟨"69.69.0.2", "n1"⟩)] "zzz" "a" "x" "y"
      (by decide)).2.2 (by decide)⟩

/-- A document whose top object lacks a "containers" key is returned
unchanged by the reader. -/
theorem load_containers_obj_none {fields : List (String × JVal)}
    (h : jLookup fields "containers" = none) :
    load_containers (JVal.obj fields) = JVal.obj fields := by
  have h0 : load_containers (JVal.obj fields) =
      match jLookup fields "containers" with
      | some inner => inner
      | none => JVal.obj fields := rfl
  rw [h0, h]

/-- The bare document written by save_containers has no "containers" key
when no container bears that name. -/
theorem save_containers_no_key {c : Registry}
    (hc : hasName c "containers" = false) :
    jLookup (c.map (fun p => (p.1, encodeRecord p.2))) "containers" = none := by
  unfold jLookup
  rw [List.find?_map]
  have h2 : List.find? ((fun p => p.1 == "containers") ∘
      (fun p => (p.1, encodeRecord p.2))) c = none :=
    List.find?_eq_none.mpr (fun x hx => by
      have := hasName_eq_false hc x hx
      simpa [Function.comp] using this)
  rw [h2]
  rfl

/-- Decoding inverts encoding record by record, stated over the mapM the
decoder performs. -/
theorem mapM_decode (c : Registry) :
    (c.map (fun p => (p.1, encodeRecord p.2))).mapM
      (fun p => (decodeRecord p.2).map (fun r => (p.1, r))) = some c := by
  induction c with
  | nil => rfl
  | cons hd tl ih =>
    rw [List.map_cons, List.mapM_cons]
    have hhd : decodeRecord (encodeRecord hd.2) = some hd.2 := rfl
    simp only [hhd, Option.map_some]
    rw [ih]
    rfl

/-- Decoding inverts encoding. -/
theorem decode_encode (c : Registry) :
    decodeContainers (save_containers c) = some c := by
  have h0 : decodeContainers (save_containers c) =
      (c.map (fun p => (p.1, encodeRecord p.2))).mapM
        (fun p => (decodeRecord p.2).map (fun r => (p.1, r))) := rfl
  rw [h0, mapM_decode]

/-- C4 counterexample: _save_containers writes the bare record map as the
top-level JSON object, not the wrapped format with a "containers" key. -/
theorem save_format_counterexample :
    save_containers [("web", ⟨"69.69.0.2", "shocker-web"⟩)] =
      JVal.obj [("web", JVal.obj [("ip", JVal.str "69.69.0.2"),
        ("netns", JVal.str "shocker-web")])] ∧
    save_containers [("web", ⟨"69.69.0.2", "shocker-web"⟩)] ≠
      JVal.obj [("containers",
        save_containers [("web", ⟨"69.69.0.2", "shocker-web"⟩)])] :=
  ⟨rfl, by simp [save_containers, encodeRecord]⟩

/-- C4 (amended): writes emit the bare record map; the reader accepts both
the wrapped and the bare format, so loading after saving yields the saved
map under either interpretation, provided no container is itself named
"containers" (such a name would be mistaken for the wrapper key). -/
theorem registry_roundtrip_amended (c : Registry)
    (hc : hasName c "containers" = false) :
    load_containers (JVal.obj [("containers", save_containers c)]) =
      save_containers c ∧
    load_containers (save_containers c) = save_containers c ∧
    decodeContainers (save_containers c) = some c := by
  refine ⟨rfl, ?_, decode_encode c⟩
  show load_containers (JVal.obj (c.map (fun p => (p.1, encodeRecord p.2)))) = _
  rw [load_containers_obj_none (save_containers_no_key hc)]
  rfl

/-- Witness for registry_roundtrip_amended at a one-record registry. -/
theorem registry_roundtrip_amended_witness :
    load_containers (JVal.obj [("containers",
        save_containers [("web", ⟨"69.69.0.2", "shocker-web"⟩)])]) =
      save_containers [("web", ⟨"69.69.0.2", "shocker-web"⟩)] ∧
    load_containers (save_containers [("web", ⟨"69.69.0.2", "shocker-web"⟩)]) =
      save_containers [("web", ⟨"69.69.0.2", "shocker-web"⟩)] ∧
    decodeContainers (save_containers [("web", ⟨"69.69.0.2", "shocker-web"⟩)]) =
      some [("web", ⟨"69.69.0.2", "shocker-web"⟩)] :=
  registry_roundtrip_amended [("web", ⟨"69.69.0.2", "shocker-web"⟩)] rfl

/-- C7 counterexample: a first response that is already a platform manifest
(no manifest entries, layers present) is not accepted; digest selection at
the default linux/amd64 platform raises the not-found ValueError instead. -/
theorem platform_manifest_counterexample :
    pull_platform_digest ⟨none, some ["sha256:layer1"]⟩ =
      .error "Platform linux/amd64 not found in manifest list" := rfl

/-- C7 (amended): digest selection returns the digest of a manifest-list
entry matching the requested os and architecture (the pull defaults are
linux and amd64) and fails with the not-found error when no entry matches;
a platform-manifest first response, having no manifest entries, always
takes that failure path rather than being accepted. -/
theorem platform_digest_amended (resp : ManifestResponse)
    (architecture os : String) :
    (∀ d, get_platform_manifest_digest resp architecture os = .ok d →
      ∃ e ∈ resp.manifests.getD [],
        platformMatches architecture os e = true ∧ e.digest = d) ∧
    ((∀ e ∈ resp.manifests.getD [],
        platformMatches architecture os e = false) →
      get_platform_manifest_digest resp architecture os =
        .error ("Platform " ++ os ++ "/" ++ architecture ++
          " not found in manifest list")) ∧
    (resp.manifests = none →
      get_platform_manifest_digest resp architecture os =
        .error ("Platform " ++ os ++ "/" ++ architecture ++
          " not found in manifest list")) := by
  refine ⟨?_, ?_, ?_⟩
  · intro d hd
    unfold get_platform_manifest_digest at hd
    cases hfind : (resp.manifests.getD []).find?
        (platformMatches architecture os) with
    | none =>
      rw [hfind] at hd
      exact Except.noConfusion hd
    | some e =>
      rw [hfind] at hd
      exact ⟨e, List.mem_of_find?_eq_some hfind, List.find?_some hfind,
        by injection hd⟩
  · intro hnone
    unfold get_platform_manifest_digest
    rw [List.find?_eq_none.mpr (fun e he => by
      rw [hnone e he]; exact Bool.false_ne_true)]
  · intro hm
    unfold get_platform_manifest_digest
    rw [hm]
    rfl

/-- Witness for platform_digest_amended: a matching entry is selected, and
an empty manifest list fails. -/
theorem platform_digest_amended_witness :
    (∃ e ∈ (ManifestResponse.mk
        (some [⟨some "amd64", some "linux", "sha256:d1"⟩]) none).manifests.getD [],
      platformMatches "amd64" "linux" e = true ∧ e.digest = "sha256:d1") ∧
    get_platform_manifest_digest ⟨some [], none⟩ "amd64" "linux" =
      .error "Platform linux/amd64 not found in manifest list" :=
  ⟨(platform_digest_amended
      ⟨some [⟨some "amd64", some "linux", "sha256:d1"⟩], none⟩
      "amd64" "linux").1 "sha256:d1" rfl,
   (platform_digest_amended ⟨some [], none⟩ "amd64" "linux").2.1 (by simp)⟩

/-- addRules keeps exactly the prefix of rules accepted before the first
failure and succeeds exactly when every rule is accepted. -/
theorem addRules_eq (ok : List String → Bool) (rs : List (List String)) :
    addRules ok rs = (rs.takeWhile ok, rs.all ok) := by
  induction rs with
  | nil => rfl
  | cons r t ih =>
    by_cases hr : ok r = true
    · simp [addRules, hr, ih, List.takeWhile_cons, List.all_cons]
    · have hr2 : ok r = false := by simpa using hr
      simp [addRules, hr2, List.takeWhile_cons, List.all_cons]

/-- C6 counterexample: with the PREROUTING rule failing for the single
mapping 8080 to 80, the call aborts with the two FORWARD rules already
installed still present, refuting the per-mapping rollback. -/
theorem port_forward_rollback_counterexample :
    setup_port_forwarding (fun r => !(r.contains "PREROUTING")) [(8080, 80)]
        "69.69.0.2" =
      ([["iptables", "-A", "FORWARD", "-d", "69.69.0.2", "-p", "tcp",
          "--dport", "80", "-j", "ACCEPT"],
        ["iptables", "-A", "FORWARD", "-s", "69.69.0.2", "-p", "tcp",
          "--sport", "80", "-j", "ACCEPT"]], false) ∧
    (setup_port_forwarding (fun r => !(r.contains "PREROUTING")) [(8080, 80)]
        "69.69.0.2").1 ≠ [] :=
  ⟨rfl, by decide⟩

/-- C6 (amended): when any of a mapping's five rules fails, the
CalledProcessError propagates at once with no rollback: the rules of all
earlier fully-programmed mappings and the successfully-added prefix of the
failing mapping remain installed, later mappings are not attempted, and the
call reports failure. -/
theorem port_forward_amended (ok : List String → Bool) (container_ip : String)
    (pre : List (Nat × Nat)) (h c : Nat) (rest : List (Nat × Nat))
    (hpre : ∀ m ∈ pre, (mappingRules container_ip m.1 m.2).all ok = true)
    (hfail : (mappingRules container_ip h c).all ok = false) :
    setup_port_forwarding ok (pre ++ (h, c) :: rest) container_ip =
      ((pre.map (fun m => mappingRules container_ip m.1 m.2)).flatten ++
        (mappingRules container_ip h c).takeWhile ok, false) := by
  induction pre with
  | nil =>
    show setup_port_forwarding ok ((h, c) :: rest) container_ip = _
    unfold setup_port_forwarding
    rw [addRules_eq]
    simp [hfail]
  | cons p t ih =>
    have hp := hpre p (List.mem_cons_self _ _)
    have htw : (mappingRules container_ip p.1 p.2).takeWhile ok =
        mappingRules container_ip p.1 p.2 :=
      List.takeWhile_eq_self_iff.mpr (fun x hx => by
        simpa using List.all_eq_true.mp hp x hx)
    have ih2 := ih (fun m hm => hpre m (List.mem_cons_of_mem _ hm))
    show setup_port_forwarding ok (p :: (t ++ (h, c) :: rest)) container_ip = _
    unfold setup_port_forwarding
    rw [addRules_eq, hp, htw]
    simp only [if_true]
    rw [ih2]
    simp [List.flatten, List.append_assoc]

/-- Witness for port_forward_amended: the first mapping succeeds fully, the
second fails at its PREROUTING rule (which mentions host port 8080). -/
theorem port_forward_amended_witness :
    setup_port_forwarding (fun r => !(r.contains "8080"))
        ([(1, 2)] ++ (8080, 80) :: []) "69.69.0.2" =
      (([(1, 2)].map (fun m => mappingRules "69.69.0.2" m.1 m.2)).flatten ++
        (mappingRules "69.69.0.2" 8080 80).takeWhile
          (fun r => !(r.contains "8080")), false) :=
  port_forward_amended (fun r => !(r.contains "8080")) "69.69.0.2"
    [(1, 2)] 8080 80 [] (by decide) (by decide)

/-- C2 counterexample: with every orchestration step succeeding and the
child exiting 2, chroot_execute raises CalledProcessError, the run fails,
and the process exits 1 rather than with the child exit code 2. -/
theorem child_nonzero_exit_counterexample :
    chroot_execute true 2 = .error (.calledProcessError 2) ∧
    (run_container ⟨0, true, 1, true, true, true, true, 2, []⟩).outcome =
      .error (.calledProcessError 2) ∧
    processExitCode (run_container ⟨0, true, 1, true, true, true, true, 2, []⟩) =
      1 :=
  ⟨rfl, rfl, rfl⟩

/-- C2 (amended): a non-zero child exit IS an orchestration failure:
subprocess.run with check=True makes chroot_execute raise
CalledProcessError carrying the child code, run_container propagates it
(so the process exits 1, not with the child code) and never reaches the
exit-code print; the finally-block cleanups still all run.  Only a zero
child exit yields success, with process exit code 0 equal to the child
code, which is then captured by the print. -/
theorem child_exit_amended (env : RunEnv)
    (h0 : env.euid = 0) (h1 : env.imageExists = true)
    (h2 : env.layerCount ≠ 0) (h3 : env.netnsSetupOk = true)
    (h4 : env.extractOk = true) (h5 : env.dnsOk = true)
    (h6 : env.spawnOk = true) :
    (env.childExit ≠ 0 →
      (run_container env).outcome = .error (.calledProcessError env.childExit) ∧
      processExitCode (run_container env) = 1 ∧
      (run_container env).capturedExit = none) ∧
    (env.childExit = 0 →
      (run_container env).outcome = .ok () ∧
      processExitCode (run_container env) = 0 ∧
      (run_container env).capturedExit = some 0) ∧
    (run_container env).cleanups =
      (if env.ports.isEmpty then [] else [CleanupStep.socatCleanup]) ++
        [CleanupStep.netnsCleanup, CleanupStep.rmtreeRootfs] := by
  have hbody : ∀ hc : env.childExit ≠ 0,
      runBody env = .error (.calledProcessError env.childExit) := by
    intro hc
    unfold runBody chroot_execute
    rw [h4, h5, h6]
    simp [hc]
  have hbody0 : env.childExit = 0 → runBody env = .ok 0 := by
    intro hc
    unfold runBody chroot_execute
    rw [h4, h5, h6]
    simp [hc]
  have hred : run_container env =
      match runBody env with
      | .ok code =>
        ⟨.ok (),
          (if env.ports.isEmpty then [] else [CleanupStep.socatCleanup]) ++
            [CleanupStep.netnsCleanup, CleanupStep.rmtreeRootfs],
          true, true, true, some code⟩
      | .error e =>
        ⟨.error e,
          (if env.ports.isEmpty then [] else [CleanupStep.socatCleanup]) ++
            [CleanupStep.netnsCleanup, CleanupStep.rmtreeRootfs],
          true, true, true, none⟩ := by
    unfold run_container
    rw [if_neg (fun hcon => hcon h0), if_neg (by simp [h1]), if_neg h2,
      if_neg (by simp [h3])]
  refine ⟨?_, ?_, ?_⟩
  · intro hc
    rw [hred, hbody hc]
    exact ⟨rfl, rfl, rfl⟩
  · intro hc
    rw [hred, hbody0 hc]
    exact ⟨rfl, rfl, rfl⟩
  · rw [hred]
    cases runBody env <;> rfl

/-- Witness for child_exit_amended at child exit 7 with one port mapping. -/
theorem child_exit_amended_witness :
    (run_container ⟨0, true, 1, true, true, true, true, 7, [(8080, 80)]⟩).outcome =
      .error (.calledProcessError 7) ∧
    processExitCode
      (run_container ⟨0, true, 1, true, true, true, true, 7, [(8080, 80)]⟩) = 1 ∧
    (run_container ⟨0, true, 1, true, true, true, true, 7, [(8080, 80)]⟩).capturedExit =
      none :=
  (child_exit_amended ⟨0, true, 1, true, true, true, true, 7, [(8080, 80)]⟩
    rfl rfl (by decide) rfl rfl rfl rfl).1 (by decide)

/-- C3 counterexample: when network-namespace setup fails after the rootfs
directory was created, the namespace is torn down by the handler inside
setup_network_namespace, but the rootfs directory is not removed: the
removal lives in a finally block that is entered only after namespace setup
succeeded. -/
theorem netns_failure_leaks_rootfs_counterexample :
    (run_container ⟨0, true, 1, false, true, true, true, 0, [(8080, 80)]⟩).rootfsCreated =
      true ∧
    (run_container ⟨0, true, 1, false, true, true, true, 0, [(8080, 80)]⟩).rootfsRemoved =
      false ∧
    (run_container ⟨0, true, 1, false, true, true, true, 0, [(8080, 80)]⟩).netnsTornDown =
      true ∧
    (run_container ⟨0, true, 1, false, true, true, true, 0, [(8080, 80)]⟩).outcome =
      .error .netnsSetupFailed :=
  ⟨rfl, rfl, rfl, rfl⟩

/-- C3 (amended): once namespace setup has succeeded, the finally block
runs every recorded cleanup in LIFO order (socat processes when ports were
requested, then the namespace, then the rootfs directory) on every body
failure and on normal exit; but a network-namespace setup failure only
tears the namespace down and leaks the rootfs directory, and socat
port-forward setup swallows its errors and never raises. -/
theorem cleanup_amended (env : RunEnv)
    (h0 : env.euid = 0) (h1 : env.imageExists = true)
    (h2 : env.layerCount ≠ 0) :
    (env.netnsSetupOk = true →
      (run_container env).cleanups =
        (if env.ports.isEmpty then [] else [CleanupStep.socatCleanup]) ++
          [CleanupStep.netnsCleanup, CleanupStep.rmtreeRootfs] ∧
      (run_container env).rootfsRemoved = true ∧
      (run_container env).netnsTornDown = true) ∧
    (env.netnsSetupOk = false →
      (run_container env).rootfsCreated = true ∧
      (run_container env).rootfsRemoved = false ∧
      (run_container env).netnsTornDown = true ∧
      (run_container env).outcome = .error .netnsSetupFailed) := by
  constructor
  · intro h3
    have hred : run_container env =
        match runBody env with
        | .ok code =>
          ⟨.ok (),
            (if env.ports.isEmpty then [] else [CleanupStep.socatCleanup]) ++
              [CleanupStep.netnsCleanup, CleanupStep.rmtreeRootfs],
            true, true, true, some code⟩
        | .error e =>
          ⟨.error e,
            (if env.ports.isEmpty then [] else [CleanupStep.socatCleanup]) ++
              [CleanupStep.netnsCleanup, CleanupStep.rmtreeRootfs],
            true, true, true, none⟩ := by
      unfold run_container
      rw [if_neg (fun hcon => hcon h0), if_neg (by simp [h1]), if_neg h2,
        if_neg (by simp [h3])]
    rw [hred]
    cases runBody env <;> exact ⟨rfl, rfl, rfl⟩
  · intro h3
    have hred : run_container env =
        ⟨.error .netnsSetupFailed, [], true, false, true, none⟩ := by
      unfold run_container
      rw [if_neg (fun hcon => hcon h0), if_neg (by simp [h1]), if_neg h2,
        if_pos h3]
    rw [hred]
    exact ⟨rfl, rfl, rfl, rfl⟩

/-- Witness for cleanup_amended: a run whose DNS step fails still performs
all three cleanups; a run whose namespace setup fails leaks the rootfs. -/
theorem cleanup_amended_witness :
    (run_container ⟨0, true, 1, true, true, false, true, 0, [(8080, 80)]⟩).cleanups =
      [CleanupStep.socatCleanup, CleanupStep.netnsCleanup,
        CleanupStep.rmtreeRootfs] ∧
    (run_container ⟨0, true, 1, false, true, true, true, 0, []⟩).rootfsRemoved =
      false := by
  constructor
  · have h := ((cleanup_amended
      ⟨0, true, 1, true, true, false, true, 0, [(8080, 80)]⟩
      rfl rfl (by decide)).1 rfl).1
    simpa using h
  · exact ((cleanup_amended ⟨0, true, 1, false, true, true, true, 0, []⟩
      rfl rfl (by decide)).2 rfl).2.1

/-- Key presence is preserved by extending the disk on the right. -/
theorem hasKey_append_left {l : Disk} {k : String} (ext : Disk)
    (h : hasKey l k = true) : hasKey (l ++ ext) k = true := by
  unfold hasKey at h ⊢
  rw [List.any_append, h]
  rfl

/-- The pull loop only appends to the disk. -/
theorem pullLayers_extends (remote : Remote) (dir : String) :
    ∀ (ls : List String) (i : Nat) (disk : Disk),
      ∃ ext, (pullLayers remote dir i ls disk).1 = disk ++ ext := by
  intro ls
  induction ls with
  | nil => exact fun i disk => ⟨[], by simp [pullLayers]⟩
  | cons d rest ih =>
    intro i disk
    have hpl : pullLayers remote dir i (d :: rest) disk =
        if hasKey remote d = false then
          pullLayers remote dir (i + 1) rest disk
        else if hasKey disk (layerPath dir i d) then
          pullLayers remote dir (i + 1) rest disk
        else
          ((pullLayers remote dir (i + 1) rest
              (disk ++ [(layerPath dir i d, (lookupKey remote d).getD "")])).1,
            d :: (pullLayers remote dir (i + 1) rest
              (disk ++ [(layerPath dir i d, (lookupKey remote d).getD "")])).2) :=
      rfl
    rw [hpl]
    by_cases hr : hasKey remote d = false
    · rw [if_pos hr]
      exact ih _ _
    · rw [if_neg hr]
      by_cases hp : hasKey disk (layerPath dir i d)
      · rw [if_pos hp]
        exact ih _ _
      · rw [if_neg hp]
        obtain ⟨ext, hext⟩ := ih (i + 1)
          (disk ++ [(layerPath dir i d, (lookupKey remote d).getD "")])
        exact ⟨[(layerPath dir i d, (lookupKey remote d).getD "")] ++ ext,
          by rw [hext, List.append_assoc]⟩

/-- After the pull loop, every available layer path is on disk. -/
theorem pullLayers_covers (remote : Remote) (dir : String) :
    ∀ (ls : List String) (i : Nat) (disk : Disk) (p : String),
      p ∈ availPaths remote dir i ls →
      hasKey (pullLayers remote dir i ls disk).1 p = true := by
  intro ls
  induction ls with
  | nil =>
    intro i disk p hp
    simp [availPaths] at hp
  | cons d rest ih =>
    intro i disk p hp
    have ha : availPaths remote dir i (d :: rest) =
        if hasKey remote d = false then availPaths remote dir (i + 1) rest
        else layerPath dir i d :: availPaths remote dir (i + 1) rest := rfl
    have hpl : pullLayers remote dir i (d :: rest) disk =
        if hasKey remote d = false then
          pullLayers remote dir (i + 1) rest disk
        else if hasKey disk (layerPath dir i d) then
          pullLayers remote dir (i + 1) rest disk
        else
          ((pullLayers remote dir (i + 1) rest
              (disk ++ [(layerPath dir i d, (lookupKey remote d).getD "")])).1,
            d :: (pullLayers remote dir (i + 1) rest
              (disk ++ [(layerPath dir i d, (lookupKey remote d).getD "")])).2) :=
      rfl
    rw [ha] at hp
    rw [hpl]
    by_cases hr : hasKey remote d = false
    · rw [if_pos hr] at hp ⊢
      exact ih _ _ _ hp
    · rw [if_neg hr] at hp ⊢
      rcases List.mem_cons.mp hp with hone | hrest
    
      · subst hone
        by_cases hpd : hasKey disk (layerPath dir i d)
        · rw [if_pos hpd]
          obtain ⟨ext, hext⟩ := pullLayers_extends remote dir rest (i + 1) disk
          rw [hext]
          exact hasKey_append_left ext hpd
        · rw [if_neg hpd]
          obtain ⟨ext, hext⟩ := pullLayers_extends remote dir rest (i + 1)
            (disk ++ [(layerPath dir i d, (lookupKey remote d).getD "")])
          show hasKey (pullLayers remote dir (i + 1) rest
            (disk ++ [(layerPath dir i d, (lookupKey remote d).getD "")])).1
              (layerPath dir i d) = true
          rw [hext]
          refine hasKey_append_left ext ?_
          unfold hasKey
          rw [List.any_append]
          simp
      · by_cases hpd : hasKey disk (layerPath dir i d)
        · rw [if_pos hpd]
          exact ih _ _ _ hrest
        · rw [if_neg hpd]
          exact ih _ _ _ hrest

/-- When every available layer path is already on disk the pull loop is the
identity and downloads nothing. -/
theorem pullLayers_noop (remote : Remote) (dir : String) :
    ∀ (ls : List String) (i : Nat) (disk : Disk),
      (∀ p ∈ availPaths remote dir i ls, hasKey disk p = true) →
      pullLayers remote dir i ls disk = (disk, []) := by
  intro ls
  induction ls with
  | nil => exact fun i disk _ => rfl
  | cons d rest ih =>
    intro i disk hcov
    have ha : availPaths remote dir i (d :: rest) =
        if hasKey remote d = false then availPaths remote dir (i + 1) rest
        else layerPath dir i d :: availPaths remote dir (i + 1) rest := rfl
    have hpl : pullLayers remote dir i (d :: rest) disk =
        if hasKey remote d = false then
          pullLayers remote dir (i + 1) rest disk
        else if hasKey disk (layerPath dir i d) then
          pullLayers remote dir (i + 1) rest disk
        else
          ((pullLayers remote dir (i + 1) rest
              (disk ++ [(layerPath dir i d, (lookupKey remote d).getD "")])).1,
            d :: (pullLayers remote dir (i + 1) rest
              (disk ++ [(layerPath dir i d, (lookupKey remote d).getD "")])).2) :=
      rfl
    rw [ha] at hcov
    rw [hpl]
    by_cases hr : hasKey remote d = false
    · rw [if_pos hr] at hcov ⊢
      exact ih _ _ hcov
    · rw [if_neg hr] at hcov ⊢
      have hpd : hasKey disk (layerPath dir i d) = true :=
        hcov _ (List.mem_cons_self _ _)
      rw [if_pos hpd]
      exact ih _ _ (fun p hp => hcov p (List.mem_cons_of_mem _ hp))

/-- C8: pull skips every layer whose target path already exists on disk,
and a second pull over the disk produced by a first pull changes nothing
and downloads no blob at all. -/
theorem pull_idempotent_spec (remote : Remote) (dir : String) (i : Nat)
    (d : String) (rest layers : List String) (disk : Disk)
    (hd : hasKey disk (layerPath dir i d) = true) :
    pullLayers remote dir i (d :: rest) disk =
      pullLayers remote dir (i + 1) rest disk ∧
    pullImage remote dir layers ((pullImage remote dir layers disk).1) =
      ((pullImage remote dir layers disk).1, []) := by
  constructor
  · have hpl : pullLayers remote dir i (d :: rest) disk =
        if hasKey remote d = false then
          pullLayers remote dir (i + 1) rest disk
        else if hasKey disk (layerPath dir i d) then
          pullLayers remote dir (i + 1) rest disk
        else
          ((pullLayers remote dir (i + 1) rest
              (disk ++ [(layerPath dir i d, (lookupKey remote d).getD "")])).1,
            d :: (pullLayers remote dir (i + 1) rest
              (disk ++ [(layerPath dir i d, (lookupKey remote d).getD "")])).2) :=
      rfl
    rw [hpl]
    by_cases hr : hasKey remote d = false
    · rw [if_pos hr]
    · rw [if_neg hr, if_pos hd]
  · exact pullLayers_noop remote dir layers 1 _
      (fun p hp => pullLayers_covers remote dir layers 1 disk p hp)

/-- Witness for pull_idempotent_spec on a one-layer image whose file is
already on disk. -/
theorem pull_idempotent_spec_witness :
    pullLayers [("sha256:x", "XX")] "d" 1 ["sha256:x"]
        [("d/layer_001_sha256_x.tar.gz", "XX")] =
      pullLayers [("sha256:x", "XX")] "d" 2 []
        [("d/layer_001_sha256_x.tar.gz", "XX")] ∧
    pullImage [("sha256:x", "XX")] "d" ["sha256:x"]
        ((pullImage [("sha256:x", "XX")] "d" ["sha256:x"]
          [("d/layer_001_sha256_x.tar.gz", "XX")]).1) =
      ((pullImage [("sha256:x", "XX")] "d" ["sha256:x"]
          [("d/layer_001_sha256_x.tar.gz", "XX")]).1, []) :=
  pull_idempotent_spec [("sha256:x", "XX")] "d" 1 "sha256:x" [] ["sha256:x"]
    [("d/layer_001_sha256_x.tar.gz", "XX")] (by rfl)
